/-
Verification of the HTN252 settlement flow.

Shallow embedding of the balance-reconciliation / settlement code:
  * `src/api/src/core/xrpl.py`   — currency conversions, challenge HMAC, submission
  * `src/api/src/core/wallet.py` — wallet extraction, balance checks, sends
  * `src/api/src/routers/recipients.py` — deposit/withdraw route, sanitization,
    public lookup
  * `src/src/routers/financial.py` — redeem route, wallet balance lookup

Python `Decimal`/float arithmetic is embedded as exact rationals (`ℚ`);
`ROUND_DOWN` is rounding toward zero.  External collaborators (the XRPL
client library, the database) are passed in explicitly: database rows as
`Option`-valued lookups, the ledger gateway as oracle fields of an
environment record, with every gateway interaction logged in a call trace.
-/
import Mathlib

namespace HTN252

/-! ## Errors

`fastapi.HTTPException` and plain Python exceptions (`ValueError`,
`RuntimeError`) as they travel through the route handlers. -/

structure HTTPError where
  status : Nat
  detail : String
deriving Repr, DecidableEq

inductive PyErr where
  | http (e : HTTPError)
  | valueError (msg : String)
deriving Repr, DecidableEq

instance {ε α : Type} [DecidableEq ε] [DecidableEq α] : DecidableEq (Except ε α) := by
  intro a b
  cases a <;> cases b
  case error.error e f =>
    exact match decEq e f with
    | isTrue h => isTrue (by rw [h])
    | isFalse h => isFalse (fun he => h (Except.error.inj he))
  case error.ok e v => exact isFalse (fun he => Except.noConfusion he)
  case ok.error v e => exact isFalse (fun he => Except.noConfusion he)
  case ok.ok v w =>
    exact match decEq v w with
    | isTrue h => isTrue (by rw [h])
    | isFalse h => isFalse (fun he => h (Except.ok.inj he))

/-! ## Decimal rounding (`decimal.ROUND_DOWN`)

`Decimal.quantize(..., rounding=ROUND_DOWN)` and
`Decimal.to_integral_value(rounding=ROUND_DOWN)` round toward zero. -/

/-- Round a rational toward zero to an integer (Python `ROUND_DOWN`). -/
def decRoundDown (x : ℚ) : ℤ :=
  if 0 ≤ x then ⌊x⌋ else -⌊-x⌋

/-- `x.quantize(Decimal("0.1^n"), rounding=ROUND_DOWN)`: keep `n` decimal
digits, rounding toward zero. -/
def quantizeDown (n : ℕ) (x : ℚ) : ℚ :=
  (decRoundDown (x * 10 ^ n) : ℚ) / 10 ^ n

/-! ## Currency conversions (`src/api/src/core/xrpl.py`)

`get_xrp_usd_price` reads the configured `XRPL_USD_RATE`; it is passed
here as the explicit argument `price` (USD per 1 XRP). -/

/-- `usd_to_xrp_drops` (xrpl.py lines 135–143): reject non-positive input,
convert USD → XRP rounded down to 6 decimal places, then to integer drops
rounded down. -/
def usd_to_xrp_drops (price : ℚ) (usd : ℚ) : Except PyErr ℤ :=
  if usd ≤ 0 then .error (.valueError "usd must be > 0")
  else
    let xrp := quantizeDown 6 (usd / price)
    .ok (decRoundDown (xrp * 1000000))

/-- The value computed by `xrp_drops_to_usd` (xrpl.py lines 146–155) after
its non-negativity guard: drops → USD truncated to 2 decimal places. -/
def xrpDropsToUsdVal (price : ℚ) (drops : ℤ) : ℚ :=
  quantizeDown 2 ((drops : ℚ) / 1000000 * price)

/-- `xrp_drops_to_usd` (xrpl.py lines 146–155). -/
def xrp_drops_to_usd (price : ℚ) (drops : ℤ) : Except PyErr ℚ :=
  if drops < 0 then .error (.valueError "drops must be >= 0")
  else .ok (xrpDropsToUsdVal price drops)

/-! ## Database records

Row shapes as created by the repository itself (`create_recipient` in
`src/api/src/routers/recipients.py` fixes the recipient columns; the NGO
account columns are the ones the settlement flow reads).  `verified` is
read with `dict.get("verified", False)`, so it defaults to `false`. -/

structure Recipient where
  recipient_id : String
  ngo_id : String
  name : String
  location : String
  balance : ℚ
  public_key : String
  private_key : String
  address : String
  created_at : String
  seed : String
  verified : Bool := false
deriving Repr, DecidableEq

structure Account where
  ngo_id : String
  public_key : String
  private_key : String
  seed : String
  address : String
deriving Repr, DecidableEq

/-- A Settlement Record (row of `TBL_PAYOUTS`). -/
structure Payout where
  payout_id : String
  store_id : String
  program_id : String
  amount_minor : ℤ
  currency : String
  quote_id : String
  xrpl_tx_hash : String
  status : String
  created_at : String
deriving Repr, DecidableEq

/-- A Movement Record (row of `TBL_MOVES`). -/
structure Move where
  tx_hash : String
  classic_address : String
  direction : String
  delivered_currency : String
  delivered_minor : ℤ
  occurred_at : String
deriving Repr, DecidableEq

/-! ## Ledger gateway environment

The XRPL client library is external.  Its observable behaviour during one
request is captured by oracle fields, and every gateway interaction the
code performs is recorded in a trace of `GCall`s. -/

/-- One call to the Ledger Gateway. -/
inductive GCall where
  | balanceQuery (address : String)
  | submitTx (senderAddress destination : String) (drops : ℤ)
deriving Repr, DecidableEq

structure GatewayEnv where
  /-- Configured `XRPL_USD_RATE` (USD per 1 XRP). -/
  price : ℚ
  /-- `derive_classic_address` wrapped by `derive_address_from_public_key`:
  classic address, or `none` when derivation raises. -/
  deriveAddress : String → Option String
  /-- Result of the `AccountInfo` query in `fetch_xrp_balance_drops`:
  the integer `Balance`, or `none` when the RPC raises / the reply is
  malformed. -/
  fetchDrops : String → Option ℤ
  /-- Outcome of the xrpl-py submit of this request's single transfer:
  `.error msg` when the library raises, otherwise the optional transaction
  hash found in the result. -/
  submitOutcome : Except String (Option String)

/-- `fetch_xrp_balance_drops` (api xrpl.py lines 209–224): empty address
short-circuits before any client call; otherwise one gateway query. -/
def fetch_xrp_balance_drops (env : GatewayEnv) (classic_address : String) :
    Option ℤ × List GCall :=
  if classic_address = "" then (none, [])
  else (env.fetchDrops classic_address, [.balanceQuery classic_address])

/-- `submit_and_wait_compat` (api xrpl.py lines 55–91) restricted to its
hash outcome: a result without a hash raises `RuntimeError`. -/
def submit_and_wait_compat (outcome : Except String (Option String)) :
    Except String String :=
  match outcome with
  | .error exc => .error exc
  | .ok none => .error "submit_and_wait returned no hash"
  | .ok (some h) => if h = "" then .error "submit_and_wait returned no hash" else .ok h

/-- `_submit_transaction` (api xrpl.py lines 227–235): any exception maps to
HTTP 502, and an empty hash is treated as failure even without an
exception. -/
def submit_transaction (outcome : Except String (Option String)) : Except PyErr String :=
  match submit_and_wait_compat outcome with
  | .error exc => .error (.http ⟨502, "XRPL submission failed: " ++ exc⟩)
  | .ok h =>
      if h = "" then .error (.http ⟨502, "XRPL transaction returned no hash"⟩)
      else .ok h

/-! ## Wallet helpers (`src/api/src/core/wallet.py`) -/

structure WalletDetails where
  seed : String
  address : String
deriving Repr, DecidableEq

structure WalletBalance where
  address : String
  balance_drops : ℤ
  balance_usd : ℚ
deriving Repr, DecidableEq

/-- `resolve_classic_address` (wallet.py lines 36–50): prefer the stored
address, else derive from the public key (empty strings are falsy). -/
def resolve_classic_address (deriveAddress : String → Option String)
    (address public_key : String) : Option String :=
  if address ≠ "" then some address
  else if public_key ≠ "" then deriveAddress public_key
  else none

/-- `extract_wallet` (wallet.py lines 53–82) with the default secret fields
`("seed", "private_key")`, tried in that order. -/
def extract_wallet (deriveAddress : String → Option String)
    (seed private_key public_key address : String)
    (error_detail : String) : Except PyErr WalletDetails :=
  let secret : Option String :=
    if seed ≠ "" then some seed
    else if private_key ≠ "" then some private_key
    else none
  match secret with
  | none => .error (.http ⟨500, error_detail⟩)
  | some s =>
      match resolve_classic_address deriveAddress address public_key with
      | none => .error (.http ⟨500, "Could not derive wallet address"⟩)
      | some a => .ok ⟨s, a⟩

/-- `get_wallet_balance` (wallet.py lines 85–98). -/
def get_wallet_balance (env : GatewayEnv) (address : String) :
    Except PyErr (Option WalletBalance) × List GCall :=
  match fetch_xrp_balance_drops env address with
  | (none, calls) => (.ok none, calls)
  | (some drops, calls) =>
      match xrp_drops_to_usd env.price drops with
      | .error e => (.error e, calls)
      | .ok usd => (.ok (some ⟨address, drops, usd⟩), calls)

/-- `ensure_balance` (wallet.py lines 101–125) with the default statuses
(missing 400, insufficient 400). -/
def ensure_balance (env : GatewayEnv) (address : String) (amount_required : ℚ)
    (entity missing_detail : String) : Except PyErr WalletBalance × List GCall :=
  match get_wallet_balance env address with
  | (.error e, calls) => (.error e, calls)
  | (.ok none, calls) => (.error (.http ⟨400, missing_detail⟩), calls)
  | (.ok (some b), calls) =>
      if b.balance_usd < amount_required then
        (.error (.http ⟨400, "Insufficient " ++ entity ++ " wallet balance"⟩), calls)
      else (.ok b, calls)

/-- `wallet_to_wallet_send` (api xrpl.py lines 246–268): validate inputs,
convert USD → drops, then submit the payment (the submission itself is the
one logged gateway transfer). -/
def wallet_to_wallet_send (env : GatewayEnv)
    (sender_seed sender_address destination : String) (amount_usd : ℚ) :
    Except PyErr String × List GCall :=
  if sender_seed = "" ∨ sender_address = "" ∨ destination = "" then
    (.error (.http ⟨400, "Missing sender or destination info"⟩), [])
  else
    match usd_to_xrp_drops env.price amount_usd with
    | .error e => (.error e, [])
    | .ok drops =>
        (submit_transaction env.submitOutcome,
          [.submitTx sender_address destination drops])

/-- A submission outcome in which the external transfer call either raised
or came back without a transaction hash (an empty or absent hash). -/
def submitFailed (o : Except String (Option String)) : Prop :=
  match o with
  | .error _ => True
  | .ok none => True
  | .ok (some h) => h = ""

instance (o : Except String (Option String)) : Decidable (submitFailed o) := by
  unfold submitFailed
  match o with
  | .error _ => exact inferInstanceAs (Decidable True)
  | .ok none => exact inferInstanceAs (Decidable True)
  | .ok (some h) => exact inferInstanceAs (Decidable (h = ""))

/-- `send_usd` (wallet.py lines 128–147): an empty returned hash is
treated as failure even though the transfer call did not raise. -/
def send_usd (env : GatewayEnv) (sender : WalletDetails) (destination : String)
    (amount : ℚ) : Except PyErr String × List GCall :=
  match wallet_to_wallet_send env sender.seed sender.address destination amount with
  | (.error e, calls) => (.error e, calls)
  | (.ok h, calls) =>
      if h = "" then (.error (.http ⟨500, "Wallet transfer failed"⟩), calls)
      else (.ok h, calls)

/-! ## The deposit/withdraw route (`manage_recipient_balance`) -/

inductive OpType where
  | deposit
  | withdraw
deriving Repr, DecidableEq

/-- Request body schema `BalanceOperation` (models.py lines 142–145). -/
structure BalanceOperation where
  amount : ℚ
  operation_type : OpType
  description : Option String
deriving Repr, DecidableEq

/-- Pydantic validation of `BalanceOperation.amount`: `Field(gt=0)`. -/
def balanceOperationValid (body : BalanceOperation) : Prop :=
  0 < body.amount

/-- The JSON body returned on success by `manage_recipient_balance`. -/
structure BalanceResponse where
  previous_balance : ℚ
  new_balance : ℚ
  operation : OpType
  amount : ℚ
  tx_hash : String
deriving Repr, DecidableEq

/-- Everything observable about one run of `manage_recipient_balance`:
the HTTP response, the recipient row afterwards, the gateway trace, and
the settlement/movement rows appended (the route appends none). -/
structure OpOutcome where
  response : Except PyErr BalanceResponse
  recipientAfter : Option Recipient
  calls : List GCall
  payoutsWritten : List Payout
  movesWritten : List Move
deriving Repr, DecidableEq

/-- The route's trailing handlers: `except HTTPException: raise` /
`except Exception as e: raise HTTPException(500, f"Database error: ...")`. -/
def wrap_route_errors {α : Type} (r : Except PyErr α) : Except PyErr α :=
  match r with
  | .error (.valueError m) => .error (.http ⟨500, "Database error: " ++ m⟩)
  | other => other

/-- `_load_wallets` (recipients.py lines 37–52). -/
def load_wallets (env : GatewayEnv) (account : Option Account) (r : Recipient) :
    Except PyErr (WalletDetails × WalletDetails) :=
  match account with
  | none => .error (.http ⟨500, "NGO account not found"⟩)
  | some a =>
      match extract_wallet env.deriveAddress a.seed a.private_key a.public_key
          a.address "Wallet keys not properly configured" with
      | .error e => .error e
      | .ok ngo_wallet =>
          match extract_wallet env.deriveAddress r.seed r.private_key r.public_key
              r.address "Wallet keys not properly configured" with
          | .error e => .error e
          | .ok recipient_wallet => .ok (ngo_wallet, recipient_wallet)

/-- Deposit branch of `manage_recipient_balance` (recipients.py
lines 195–209): check the NGO wallet balance, transfer NGO → recipient,
then increment the stored balance. -/
def deposit_branch (env : GatewayEnv) (r : Recipient)
    (ngo_wallet recipient_wallet : WalletDetails) (body : BalanceOperation) :
    OpOutcome :=
  match ensure_balance env ngo_wallet.address body.amount "NGO"
      "NGO wallet is not funded or could not fetch balance" with
  | (.error e, calls) => ⟨.error e, some r, calls, [], []⟩
  | (.ok _, calls₁) =>
      match send_usd env ngo_wallet recipient_wallet.address body.amount with
      | (.error e, calls₂) => ⟨.error e, some r, calls₁ ++ calls₂, [], []⟩
      | (.ok tx_hash, calls₂) =>
          let new_balance := r.balance + body.amount
          ⟨.ok ⟨r.balance, new_balance, body.operation_type, body.amount, tx_hash⟩,
            some { r with balance := new_balance }, calls₁ ++ calls₂, [], []⟩

/-- Withdraw branch of `manage_recipient_balance` (recipients.py
lines 210–224): check the recipient wallet balance, transfer
recipient → NGO, then decrement the stored balance. -/
def withdraw_branch (env : GatewayEnv) (r : Recipient)
    (ngo_wallet recipient_wallet : WalletDetails) (body : BalanceOperation) :
    OpOutcome :=
  match ensure_balance env recipient_wallet.address body.amount "recipient"
      "Recipient wallet is not funded or could not fetch balance" with
  | (.error e, calls) => ⟨.error e, some r, calls, [], []⟩
  | (.ok _, calls₁) =>
      match send_usd env recipient_wallet ngo_wallet.address body.amount with
      | (.error e, calls₂) => ⟨.error e, some r, calls₁ ++ calls₂, [], []⟩
      | (.ok tx_hash, calls₂) =>
          let new_balance := r.balance - body.amount
          ⟨.ok ⟨r.balance, new_balance, body.operation_type, body.amount, tx_hash⟩,
            some { r with balance := new_balance }, calls₁ ++ calls₂, [], []⟩

/-- `manage_recipient_balance` (recipients.py lines 179–244).  `recipient`
is the `TBL_RECIPIENTS` row for `recipient_id`, `account` the
`TBL_ACCOUNTS` row for the authenticated NGO.  The route never writes to
`TBL_PAYOUTS` or `TBL_MOVES`. -/
def manage_recipient_balance (env : GatewayEnv) (recipient : Option Recipient)
    (account : Option Account) (ngo_id : String) (body : BalanceOperation) :
    OpOutcome :=
  let raw : OpOutcome :=
    match recipient with
    | none => ⟨.error (.http ⟨404, "Recipient not found"⟩), none, [], [], []⟩
    | some r =>
        if r.ngo_id ≠ ngo_id then
          ⟨.error (.http ⟨404, "Recipient not found"⟩), some r, [], [], []⟩
        else if body.operation_type = .withdraw ∧ r.balance < body.amount then
          ⟨.error (.http ⟨400, "Insufficient balance"⟩), some r, [], [], []⟩
        else
          match load_wallets env account r with
          | .error e => ⟨.error e, some r, [], [], []⟩
          | .ok (ngo_wallet, recipient_wallet) =>
              match body.operation_type with
              | .deposit => deposit_branch env r ngo_wallet recipient_wallet body
              | .withdraw => withdraw_branch env r ngo_wallet recipient_wallet body
  { raw with response := wrap_route_errors raw.response }

/-! ## Recipient listing, lookup and sanitization
(`src/api/src/routers/recipients.py`) -/

/-- The fields surviving `_sanitize_recipient_item` (recipients.py
lines 55–59): a copy of the row with `private_key` and `seed` removed. -/
structure SanitizedRecipient where
  recipient_id : String
  ngo_id : String
  name : String
  location : String
  balance : ℚ
  public_key : String
  address : String
  created_at : String
  verified : Bool
deriving Repr, DecidableEq

def sanitize_recipient_item (r : Recipient) : SanitizedRecipient :=
  ⟨r.recipient_id, r.ngo_id, r.name, r.location, r.balance, r.public_key,
    r.address, r.created_at, r.verified⟩

/-- Python's substring test `needle in hay`. -/
def strContains (hay needle : String) : Bool :=
  (List.range (hay.data.length + 1)).any
    (fun i => needle.data.isPrefixOf (hay.data.drop i))

/-- `list_recipients` (recipients.py lines 102–125): scan the rows of the
authenticated NGO, optionally filter by a case-insensitive name/location
substring search (an empty search string is falsy and ignored), and return
the sanitized rows with their count. -/
def list_recipients (db : List Recipient) (ngo_id : String)
    (search : Option String) : Except PyErr (List SanitizedRecipient × ℕ) :=
  let recipients := db.filter (fun r => r.ngo_id == ngo_id)
  let filtered :=
    match search with
    | none => recipients
    | some s =>
        if s = "" then recipients
        else recipients.filter (fun r =>
          strContains r.name.toLower s.toLower
            || strContains r.location.toLower s.toLower)
  let sanitized := filtered.map sanitize_recipient_item
  .ok (sanitized, sanitized.length)

/-- `get_recipient` (recipients.py lines 128–138).  The missing/foreign-NGO
404 raised inside the `try` block is caught by the route's own
`except Exception` and resurfaces as HTTP 500 "Database error". -/
def get_recipient (recipient : Option Recipient) (ngo_id : String) :
    Except PyErr SanitizedRecipient :=
  match recipient with
  | none => .error (.http ⟨500, "Database error"⟩)
  | some r =>
      if r.ngo_id ≠ ngo_id then .error (.http ⟨500, "Database error"⟩)
      else .ok (sanitize_recipient_item r)

/-- Two stored recipient rows that agree on everything except the secret
fields `private_key` and `seed`. -/
def agreeExceptSecrets (r₁ r₂ : Recipient) : Prop :=
  r₁.recipient_id = r₂.recipient_id ∧ r₁.ngo_id = r₂.ngo_id
    ∧ r₁.name = r₂.name ∧ r₁.location = r₂.location ∧ r₁.balance = r₂.balance
    ∧ r₁.public_key = r₂.public_key ∧ r₁.address = r₂.address
    ∧ r₁.created_at = r₂.created_at ∧ r₁.verified = r₂.verified

/-- The public (unauthenticated) recipient view returned by
`get_recipient_public`. -/
structure PublicRecipientView where
  recipient_id : String
  name : String
  balance : ℚ
  verified : Bool
  created_at : String
deriving Repr, DecidableEq

/-- `get_recipient_public` (recipients.py lines 261–286): the two hardcoded
demo identifiers return a fabricated record before any database access; as
in `get_recipient`, an inner 404 would resurface as HTTP 500. -/
def get_recipient_public (db : String → Option Recipient) (recipient_id : String) :
    Except PyErr PublicRecipientView :=
  if recipient_id = "550e8400-e29b-41d4-a716-446655440000"
      ∨ recipient_id = "7c18326a-eafb-4f90-804c-6926baacb38a" then
    .ok ⟨recipient_id, "Demo Recipient", 100, true, "2024-01-01T00:00:00Z"⟩
  else
    match db recipient_id with
    | none => .error (.http ⟨500, "Database error"⟩)
    | some r => .ok ⟨recipient_id, r.name, r.balance, r.verified, r.created_at⟩

/-! ## Wallet-link challenge (`src/api/src/core/xrpl.py` lines 191–199)

`mac` abstracts `hmac.new(SECRET_KEY, msg, sha256).hexdigest()` (keyed on
the configured secret); `bucket` is the caller's `int(time.time() // 300)`
— two calls in the same 300-second window pass the same bucket. -/

def make_challenge (mac : String → String) (recipient_id address : String)
    (bucket : ℤ) : String :=
  let message := "link:" ++ recipient_id ++ ":" ++ address ++ ":" ++ toString bucket
  message ++ ":" ++ mac message

/-- `verify_challenge`: `hmac.compare_digest` is (constant-time) string
equality of the presented signature and the recomputed challenge. -/
def verify_challenge (mac : String → String) (signature recipient_id address : String)
    (bucket : ℤ) : Bool :=
  signature == make_challenge mac recipient_id address bucket

/-! ## The redeem route (`src/src/routers/financial.py`)

This route lives in the second copy of the codebase and uses the
`src/src/core/xrpl.py` helpers.  Three helpers it imports
(`convert_drops_to_usd`, `convert_usd_to_drops`, `transfer_between_wallets`)
are absent from the repository sources; they are modelled from the spec
below. -/

/-- Python `classic_address.startswith("r")` for the one-character needle:
the first character is 'r'. -/
def startsWithR (s : String) : Bool := s.data.head? == some 'r'

/-- `fetch_xrp_balance_drops` from `src/src/core/xrpl.py` (lines 256–269):
an empty address or one not starting with "r" yields `None` before any
client call; an RPC/parse failure yields `0` (not `None`). -/
def fetch_xrp_balance_drops_src (fetchDrops : String → Option ℤ)
    (classic_address : String) : Option ℤ :=
  if classic_address = "" ∨ ¬ startsWithR classic_address then none
  else some ((fetchDrops classic_address).getD 0)

/-- Modelled from the spec: `convert_drops_to_usd` is imported by the
redeem route but missing from the repository sources; per §6 the
ledger-unit → currency conversion is "truncated to 2 decimal places". -/
def convert_drops_to_usd (price : ℚ) (drops : ℤ) : ℚ :=
  quantizeDown 2 ((drops : ℚ) / 1000000 * price)

/-- Modelled from the spec: `convert_usd_to_drops` is imported by the
redeem route but missing from the repository sources; per §6 the
currency → ledger-unit conversion is "truncated (never rounded up)". -/
def convert_usd_to_drops (price : ℚ) (usd : ℚ) : ℤ :=
  decRoundDown (quantizeDown 6 (usd / price) * 1000000)

structure QuoteR where
  quote_id : String
  from_currency : String
  to_currency : String
  amount_minor : ℤ
  rate_ppm : ℤ
  deliver_min : ℤ
  send_max : ℤ
deriving Repr, DecidableEq

/-- `get_quote` from `src/src/core/xrpl.py` (lines 168–186).  Python float
constants (`0.99`, `1.01`, the configured rate) are embedded as exact
rationals; `int(...)` truncates toward zero. -/
def get_quote_src (rate : ℚ) (from_currency to_currency : String)
    (amount_minor : ℤ) (quote_id : String) : Except PyErr QuoteR :=
  if from_currency ≠ "XRP" ∨ to_currency ≠ "USD" then
    .error (.http ⟨400, "Only XRP to USD quotes are supported"⟩)
  else if amount_minor ≤ 0 then .error (.http ⟨400, "Amount must be positive"⟩)
  else
    let amount_major := (amount_minor : ℚ) / 100
    .ok ⟨quote_id, from_currency, to_currency, amount_minor,
      decRoundDown (rate * 1000000),
      decRoundDown ((amount_minor : ℚ) * (99 / 100)),
      decRoundDown (amount_major / rate * 1000000 * (101 / 100))⟩

/-- Request body schema `RedeemBody` (models.py lines 37–43);
`amount_minor` is validated `conint(gt=0)`. -/
structure RedeemBody where
  voucher_id : String
  store_id : String
  recipient_id : String
  program_id : String
  amount_minor : ℤ
  currency : String
deriving Repr, DecidableEq

structure RedeemEnv where
  /-- Configured `XRPL_USD_RATE`. -/
  price : ℚ
  deriveAddress : String → Option String
  fetchDrops : String → Option ℤ
  /-- Modelled from the spec: `transfer_between_wallets` is imported by the
  redeem route but missing from the repository sources; per §6 the gateway
  submits a transfer and returns a transaction id or raises. -/
  transferOutcome : Except String String
  /-- Configured `NGO_HOT_ADDRESS`. -/
  ngoHotAddress : String
  quoteId : String
  payoutId : String
  now : String

/-- The JSON body returned on success by the redeem route. -/
structure RedeemResponse where
  payout_id : String
  store_currency : String
  amount_minor : ℤ
  quote : QuoteR
  xrpl_tx_hash : String
  status : String
  recipient_address : String
  destination_address : String
  amount_transferred_usd : ℚ
deriving Repr, DecidableEq

structure RedeemOutcome where
  response : Except PyErr RedeemResponse
  recipientAfter : Option Recipient
  payoutsWritten : List Payout
  movesWritten : List Move
deriving Repr, DecidableEq

/-- `redeem` (`src/src/routers/financial.py` lines 27–136).  The balance
sufficiency check is made against the on-ledger wallet balance only; the
stored off-ledger balance is decremented unconditionally afterwards. -/
def redeem (env : RedeemEnv) (recipient : Option Recipient) (body : RedeemBody) :
    RedeemOutcome :=
  match recipient with
  | none => ⟨.error (.http ⟨404, "Recipient not found"⟩), none, [], []⟩
  | some r =>
      if r.private_key = "" ∨ r.public_key = "" then
        ⟨.error (.http ⟨400, "Recipient wallet not properly configured"⟩), some r, [], []⟩
      else
        match (if r.address ≠ "" then some r.address else env.deriveAddress r.public_key) with
        | none =>
            ⟨.error (.http ⟨400, "Cannot derive recipient address from public key"⟩),
              some r, [], []⟩
        | some recipient_address =>
            let amount_major := (body.amount_minor : ℚ) / 100
            let amount_usd := amount_major
            match fetch_xrp_balance_drops_src env.fetchDrops recipient_address with
            | none =>
                ⟨.error (.http ⟨500, "Unable to check recipient wallet balance"⟩),
                  some r, [], []⟩
            | some drops =>
                if convert_drops_to_usd env.price drops < amount_usd then
                  ⟨.error (.http ⟨400, "Insufficient XRPL wallet balance"⟩), some r, [], []⟩
                else if env.ngoHotAddress = "" then
                  ⟨.error (.http ⟨500, "Store/NGO destination address not configured"⟩),
                    some r, [], []⟩
                else
                  match env.transferOutcome with
                  | .error e =>
                      ⟨.error (.http ⟨500, "XRPL transfer failed: " ++ e⟩), some r, [], []⟩
                  | .ok tx_hash =>
                      if tx_hash = "" then
                        ⟨.error (.http ⟨500, "XRPL transfer failed: XRPL transaction failed"⟩),
                          some r, [], []⟩
                      else
                        match get_quote_src env.price "XRP" body.currency
                            body.amount_minor env.quoteId with
                        | .error e => ⟨.error e, some r, [], []⟩
                        | .ok quote =>
                            ⟨.ok ⟨env.payoutId, body.currency, body.amount_minor, quote,
                                tx_hash, "completed", recipient_address, env.ngoHotAddress,
                                amount_usd⟩,
                              some { r with balance := r.balance - amount_major },
                              [⟨env.payoutId, body.store_id, body.program_id,
                                body.amount_minor, body.currency, quote.quote_id,
                                tx_hash, "completed", env.now⟩],
                              [⟨tx_hash, recipient_address, "out", "XRP",
                                convert_usd_to_drops env.price amount_usd, env.now⟩]⟩

/-- Response of the `/wallets/balance-usd` route. -/
structure WalletBalanceUSDResponse where
  address : Option String
  balance_drops : ℤ
  balance_usd : ℚ
deriving Repr, DecidableEq

/-- `wallet_balance_usd` (`src/src/routers/financial.py` lines 173–190):
the hardcoded demo public key returns a fixed response before deriving an
address or querying the ledger. -/
def wallet_balance_usd (deriveAddress : String → Option String)
    (fetchDrops : String → Option ℤ) (price : ℚ) (public_key : String) :
    WalletBalanceUSDResponse :=
  if public_key = "demo_public_key_abc123" then
    ⟨some "demo_address_123", 1000000, 50⟩
  else
    match deriveAddress public_key with
    | none => ⟨none, 0, 0⟩
    | some addr =>
        match fetch_xrp_balance_drops_src fetchDrops addr with
        | none => ⟨some addr, 0, 0⟩
        | some drops => ⟨some addr, drops, convert_drops_to_usd price drops⟩

/-! ## Concrete rows and environments used by witnesses and counterexamples -/

/-- Two copies of one stored row differing only in `private_key` and
`seed`. -/
def rowSecretA : Recipient :=
  ⟨"R9", "N1", "Ali", "Loc", 0, "PK", "SECRET1", "rX", "t0", "sOne", false⟩

def rowSecretB : Recipient :=
  ⟨"R9", "N1", "Ali", "Loc", 0, "PK", "SECRET2", "rX", "t0", "sTwo", false⟩

/-- A stand-in keyed MAC for challenge witnesses. -/
def demoMac (s : String) : String := s ++ "#mac"

def demoRecipient : Recipient :=
  ⟨"R1", "N1", "Alice", "Springfield", 0, "PK", "SK", "rRCP", "2024-01-01", "sSeed", false⟩

def demoAccount : Account := ⟨"N1", "NPK", "NSK", "nSeed", "rNGO"⟩

def depositBody : BalanceOperation := ⟨25, .deposit, none⟩

/-- A deposit body whose amount carries more than 2 decimal places. -/
def fractionalBody : BalanceOperation := ⟨1005 / 1000, .deposit, none⟩

/-- Gateway in a good state: price $2/XRP, every wallet holds 50 XRP
(= $100), submission succeeds with hash "TXHASH". -/
def happyEnv : GatewayEnv := ⟨2, fun _ => none, fun _ => some 50000000, .ok (some "TXHASH")⟩

/-- Same gateway, but the submit call returns without raising and without a
transaction hash. -/
def noHashEnv : GatewayEnv := ⟨2, fun _ => none, fun _ => some 50000000, .ok none⟩

/-- Redeem environment at the default configured rate $3.11/XRP: the
recipient's on-ledger wallet holds 100000 XRP (far more than the redeem
amount), the transfer succeeds with hash "TXHASH". -/
def redeemEnv : RedeemEnv :=
  ⟨311 / 100, fun _ => none, fun _ => some 100000000000, .ok "TXHASH",
    "rNGOHOT", "Q1", "P1", "t1"⟩

/-- Redeem $15.00 of voucher V1 at store S1, in USD. -/
def redeemBody : RedeemBody := ⟨"V1", "S1", "R1", "G1", 1500, "USD"⟩

end HTN252

namespace HTN252

/-! ## Supporting lemmas for rounding -/

theorem decRoundDown_nonneg_eq_floor (x : ℚ) (hx : 0 ≤ x) :
    decRoundDown x = ⌊x⌋ := by
  simp [decRoundDown, hx]

theorem decRoundDown_intCast (k : ℤ) : decRoundDown (k : ℚ) = k := by
  rcases le_or_lt 0 (k : ℚ) with h | h
  · rw [decRoundDown_nonneg_eq_floor _ h, Int.floor_intCast]
  · have hneg : ¬ (0 : ℚ) ≤ (k : ℚ) := not_le.mpr h
    rw [decRoundDown, if_neg hneg, ← Int.cast_neg, Int.floor_intCast, neg_neg]

/-- On a positive input with a positive rate, `usd_to_xrp_drops` computes
exactly `⌊usd / price * 10^6⌋` drops. -/
theorem usd_to_xrp_drops_eq_floor (price usd : ℚ) (hu : 0 < usd) (hp : 0 < price) :
    usd_to_xrp_drops price usd = .ok ⌊usd / price * 1000000⌋ := by
  have hy : (0 : ℚ) ≤ usd / price * 10 ^ 6 := by positivity
  have hnotle : ¬ usd ≤ 0 := not_le.mpr hu
  have hq : quantizeDown 6 (usd / price) * 1000000
      = ((⌊usd / price * 10 ^ 6⌋ : ℤ) : ℚ) := by
    rw [quantizeDown, decRoundDown_nonneg_eq_floor _ hy]
    have h6 : ((10 : ℚ) ^ 6) = 1000000 := by norm_num
    field_simp [h6]
  have hfloornn : (0 : ℤ) ≤ ⌊usd / price * 10 ^ 6⌋ := Int.floor_nonneg.mpr hy
  rw [usd_to_xrp_drops, if_neg hnotle]
  simp only [hq, decRoundDown_intCast]
  norm_num

/-- Claim C6: the currency-to-ledger-unit conversion truncates and never rounds
up: for every positive USD amount and positive exchange rate, the returned
number of drops is at most the exact rational value `usd / price * 10^6`;
concretely, converting $1.00 at a rate of $2 per XRP (so $1 buys 0.5 XRP)
yields exactly 500000 drops. -/
theorem usd_to_xrp_drops_truncates (price usd : ℚ) (hu : 0 < usd) (hp : 0 < price) :
    (∃ d : ℤ, usd_to_xrp_drops price usd = .ok d ∧ (d : ℚ) ≤ usd / price * 1000000)
      ∧ usd_to_xrp_drops 2 1 = .ok 500000 := by
  refine ⟨⟨⌊usd / price * 1000000⌋, usd_to_xrp_drops_eq_floor price usd hu hp, Int.floor_le _⟩, ?_⟩
  rw [usd_to_xrp_drops_eq_floor 2 1 (by norm_num) (by norm_num)]
  norm_num

/-- Witness for C6 at usd = 1, price = 2. -/
theorem usd_to_xrp_drops_truncates_witness :
    (∃ d : ℤ, usd_to_xrp_drops 2 1 = .ok d ∧ (d : ℚ) ≤ 1 / 2 * 1000000)
      ∧ usd_to_xrp_drops 2 1 = .ok 500000 :=
  usd_to_xrp_drops_truncates 2 1 (by norm_num) (by norm_num)

/-! ## Stage lemmas for the deposit/withdraw route -/

theorem extract_wallet_ok (d : String → Option String)
    (seed priv pk addr det : String) (hseed : seed ≠ "") (haddr : addr ≠ "") :
    extract_wallet d seed priv pk addr det = .ok ⟨seed, addr⟩ := by
  simp [extract_wallet, resolve_classic_address, hseed, haddr]

theorem load_wallets_ok (env : GatewayEnv) (a : Account) (r : Recipient)
    (ha1 : a.seed ≠ "") (ha2 : a.address ≠ "")
    (hr1 : r.seed ≠ "") (hr2 : r.address ≠ "") :
    load_wallets env (some a) r = .ok (⟨a.seed, a.address⟩, ⟨r.seed, r.address⟩) := by
  simp [load_wallets, extract_wallet_ok _ _ _ _ _ _ ha1 ha2,
    extract_wallet_ok _ _ _ _ _ _ hr1 hr2]

theorem ensure_balance_resolved (env : GatewayEnv) (addr : String)
    (amt : ℚ) (entity md : String) (haddr : addr ≠ "") (dd : ℤ)
    (hd : env.fetchDrops addr = some dd) (hdnn : 0 ≤ dd) :
    ensure_balance env addr amt entity md =
      ((if xrpDropsToUsdVal env.price dd < amt then
          .error (.http ⟨400, "Insufficient " ++ entity ++ " wallet balance"⟩)
        else .ok ⟨addr, dd, xrpDropsToUsdVal env.price dd⟩),
        [.balanceQuery addr]) := by
  have hnneg : ¬ dd < 0 := not_lt.mpr hdnn
  simp only [ensure_balance, get_wallet_balance, fetch_xrp_balance_drops,
    xrp_drops_to_usd, if_neg haddr, hd, if_neg hnneg]
  split <;> rfl

theorem submit_transaction_failed (o : Except String (Option String))
    (h : submitFailed o) :
    ∃ m, submit_transaction o = .error (.http ⟨502, m⟩) := by
  match o with
  | .error e => exact ⟨_, rfl⟩
  | .ok none => exact ⟨_, rfl⟩
  | .ok (some s) =>
      have hs : s = "" := h
      subst hs
      exact ⟨_, rfl⟩

theorem submit_transaction_ok (txh : String) (hne : txh ≠ "") :
    submit_transaction (.ok (some txh)) = .ok txh := by
  simp [submit_transaction, submit_and_wait_compat, hne]

theorem send_usd_ok (env : GatewayEnv) (w : WalletDetails) (dest : String)
    (amt : ℚ) (hs : w.seed ≠ "") (ha : w.address ≠ "") (hdst : dest ≠ "")
    (hamt : 0 < amt) (hp : 0 < env.price)
    (txh : String) (hsub : env.submitOutcome = .ok (some txh)) (hne : txh ≠ "") :
    send_usd env w dest amt =
      (.ok txh, [.submitTx w.address dest ⌊amt / env.price * 1000000⌋]) := by
  have hdrops : usd_to_xrp_drops env.price amt = .ok ⌊amt / env.price * 1000000⌋ :=
    usd_to_xrp_drops_eq_floor env.price amt hamt hp
  simp [send_usd, wallet_to_wallet_send, hs, ha, hdst, hdrops, hsub,
    submit_transaction_ok txh hne, hne]

theorem send_usd_failed (env : GatewayEnv) (w : WalletDetails) (dest : String)
    (amt : ℚ) (hs : w.seed ≠ "") (ha : w.address ≠ "") (hdst : dest ≠ "")
    (hamt : 0 < amt) (hp : 0 < env.price) (hfail : submitFailed env.submitOutcome) :
    ∃ m, send_usd env w dest amt =
      (.error (.http ⟨502, m⟩), [.submitTx w.address dest ⌊amt / env.price * 1000000⌋]) := by
  have hdrops : usd_to_xrp_drops env.price amt = .ok ⌊amt / env.price * 1000000⌋ :=
    usd_to_xrp_drops_eq_floor env.price amt hamt hp
  obtain ⟨m, hm⟩ := submit_transaction_failed env.submitOutcome hfail
  exact ⟨m, by simp [send_usd, wallet_to_wallet_send, hs, ha, hdst, hdrops, hm]⟩

/-! ## Claims about the deposit/withdraw route -/

/-- Claim C2: a Withdraw whose amount strictly exceeds the recorded balance is
rejected with HTTP 400 "Insufficient balance"; the stored row is unchanged
and the gateway trace is empty (no balance query, no transfer). -/
theorem withdraw_insufficient_rejected (env : GatewayEnv) (r : Recipient)
    (account : Option Account) (ngo_id : String) (body : BalanceOperation)
    (hngo : r.ngo_id = ngo_id) (hop : body.operation_type = .withdraw)
    (hlt : r.balance < body.amount) :
    manage_recipient_balance env (some r) account ngo_id body =
      ⟨.error (.http ⟨400, "Insufficient balance"⟩), some r, [], [], []⟩ := by
  simp [manage_recipient_balance, hngo, hop, hlt, wrap_route_errors]

/-- Witness for C2: balance $10, withdraw $15 (end-to-end scenario B). -/
theorem withdraw_insufficient_rejected_witness :
    manage_recipient_balance
      ⟨311/100, fun _ => none, fun _ => none, .error "down"⟩
      (some ⟨"R1", "N1", "Alice", "Loc", 10, "PK", "SK", "rA", "t0", "sEd", false⟩)
      none "N1" ⟨15, .withdraw, none⟩ =
      ⟨.error (.http ⟨400, "Insufficient balance"⟩),
        some ⟨"R1", "N1", "Alice", "Loc", 10, "PK", "SK", "rA", "t0", "sEd", false⟩,
        [], [], []⟩ :=
  withdraw_insufficient_rejected _ _ _ _ _ rfl rfl (by norm_num)

/-- Claim C5: a Deposit first queries the NGO wallet's on-ledger balance; when
that balance (in USD, truncated to cents) is below the requested amount the
operation is rejected with HTTP 400, no transfer is submitted (the trace
holds exactly the one balance query), and the stored balance is unchanged. -/
theorem deposit_insufficient_source_rejected (env : GatewayEnv) (r : Recipient)
    (a : Account) (ngo_id : String) (body : BalanceOperation) (dd : ℤ)
    (hngo : r.ngo_id = ngo_id) (hop : body.operation_type = .deposit)
    (ha1 : a.seed ≠ "") (ha2 : a.address ≠ "")
    (hr1 : r.seed ≠ "") (hr2 : r.address ≠ "")
    (hd : env.fetchDrops a.address = some dd) (hdnn : 0 ≤ dd)
    (hins : xrpDropsToUsdVal env.price dd < body.amount) :
    manage_recipient_balance env (some r) (some a) ngo_id body =
      ⟨.error (.http ⟨400, "Insufficient NGO wallet balance"⟩), some r,
        [.balanceQuery a.address], [], []⟩ := by
  have hnw : ¬ (body.operation_type = .withdraw ∧ r.balance < body.amount) := by
    rw [hop]; rintro ⟨h, -⟩; exact OpType.noConfusion h
  simp [manage_recipient_balance, hngo, hnw, hop,
    load_wallets_ok env a r ha1 ha2 hr1 hr2, deposit_branch,
    ensure_balance_resolved env a.address body.amount _ _ ha2 dd hd hdnn, hins,
    wrap_route_errors]

/-- Witness for C5: recipient balance $10, NGO wallet ≈ $5 on-ledger,
deposit $10 requested (end-to-end scenario C; price $2 per XRP, NGO wallet
2.5 XRP = 2500000 drops = $5). -/
theorem deposit_insufficient_source_rejected_witness :
    manage_recipient_balance
      ⟨2, fun _ => none, fun addr => if addr = "rNGO" then some 2500000 else none,
        .ok (some "TXH")⟩
      (some ⟨"R1", "N1", "Alice", "Loc", 10, "PK", "SK", "rA", "t0", "sEd", false⟩)
      (some ⟨"N1", "NPK", "NSK", "nSd", "rNGO"⟩) "N1" ⟨10, .deposit, none⟩ =
      ⟨.error (.http ⟨400, "Insufficient NGO wallet balance"⟩),
        some ⟨"R1", "N1", "Alice", "Loc", 10, "PK", "SK", "rA", "t0", "sEd", false⟩,
        [.balanceQuery "rNGO"], [], []⟩ := by
  have h := deposit_insufficient_source_rejected
    ⟨2, fun _ => none, fun addr => if addr = "rNGO" then some 2500000 else none,
      .ok (some "TXH")⟩
    ⟨"R1", "N1", "Alice", "Loc", 10, "PK", "SK", "rA", "t0", "sEd", false⟩
    ⟨"N1", "NPK", "NSK", "nSd", "rNGO"⟩ "N1" ⟨10, .deposit, none⟩ 2500000
    rfl rfl (by decide) (by decide) (by decide) (by decide) (by simp) (by norm_num)
    (by norm_num [xrpDropsToUsdVal, quantizeDown, decRoundDown])
  exact h

/-- Helper: full shape of a successful deposit run. -/
theorem deposit_run_ok (env : GatewayEnv) (r : Recipient) (a : Account)
    (ngo_id : String) (body : BalanceOperation) (dd : ℤ) (txh : String)
    (hngo : r.ngo_id = ngo_id) (hop : body.operation_type = .deposit)
    (hamt : 0 < body.amount) (hp : 0 < env.price)
    (ha1 : a.seed ≠ "") (ha2 : a.address ≠ "")
    (hr1 : r.seed ≠ "") (hr2 : r.address ≠ "")
    (hd : env.fetchDrops a.address = some dd) (hdnn : 0 ≤ dd)
    (hsuff : body.amount ≤ xrpDropsToUsdVal env.price dd)
    (hsub : env.submitOutcome = .ok (some txh)) (hne : txh ≠ "") :
    manage_recipient_balance env (some r) (some a) ngo_id body =
      ⟨.ok ⟨r.balance, r.balance + body.amount, .deposit, body.amount, txh⟩,
        some { r with balance := r.balance + body.amount },
        [.balanceQuery a.address,
         .submitTx a.address r.address ⌊body.amount / env.price * 1000000⌋],
        [], []⟩ := by
  have hnw : ¬ (body.operation_type = .withdraw ∧ r.balance < body.amount) := by
    rw [hop]; rintro ⟨h, -⟩; exact OpType.noConfusion h
  have hsuffn : ¬ xrpDropsToUsdVal env.price dd < body.amount := not_lt.mpr hsuff
  simp [manage_recipient_balance, hngo, hnw, hop,
    load_wallets_ok env a r ha1 ha2 hr1 hr2, deposit_branch,
    ensure_balance_resolved env a.address body.amount _ _ ha2 dd hd hdnn, hsuffn,
    send_usd_ok env ⟨a.seed, a.address⟩ r.address body.amount ha1 ha2 hr2 hamt hp
      txh hsub hne,
    wrap_route_errors]

/-- Helper: full shape of a successful withdraw run. -/
theorem withdraw_run_ok (env : GatewayEnv) (r : Recipient) (a : Account)
    (ngo_id : String) (body : BalanceOperation) (dd : ℤ) (txh : String)
    (hngo : r.ngo_id = ngo_id) (hop : body.operation_type = .withdraw)
    (hamt : 0 < body.amount) (hp : 0 < env.price)
    (ha1 : a.seed ≠ "") (ha2 : a.address ≠ "")
    (hr1 : r.seed ≠ "") (hr2 : r.address ≠ "")
    (hbal : body.amount ≤ r.balance)
    (hd : env.fetchDrops r.address = some dd) (hdnn : 0 ≤ dd)
    (hsuff : body.amount ≤ xrpDropsToUsdVal env.price dd)
    (hsub : env.submitOutcome = .ok (some txh)) (hne : txh ≠ "") :
    manage_recipient_balance env (some r) (some a) ngo_id body =
      ⟨.ok ⟨r.balance, r.balance - body.amount, .withdraw, body.amount, txh⟩,
        some { r with balance := r.balance - body.amount },
        [.balanceQuery r.address,
         .submitTx r.address a.address ⌊body.amount / env.price * 1000000⌋],
        [], []⟩ := by
  have hnlt : ¬ r.balance < body.amount := not_lt.mpr hbal
  have hsuffn : ¬ xrpDropsToUsdVal env.price dd < body.amount := not_lt.mpr hsuff
  simp [manage_recipient_balance, hngo, hnlt, hop,
    load_wallets_ok env a r ha1 ha2 hr1 hr2, withdraw_branch,
    ensure_balance_resolved env r.address body.amount _ _ hr2 dd hd hdnn, hsuffn,
    send_usd_ok env ⟨r.seed, r.address⟩ a.address body.amount hr1 hr2 ha2 hamt hp
      txh hsub hne,
    wrap_route_errors]

/-- Claim C4 amended: a successful Deposit of amount A onto previous balance
B returns previous balance B and new balance B + A with the (non-empty)
transaction hash, and stores B + A; but the route writes no Settlement
Record and no Movement Record. -/
theorem deposit_success_shape (env : GatewayEnv) (r : Recipient) (a : Account)
    (ngo_id : String) (body : BalanceOperation) (dd : ℤ) (txh : String)
    (hngo : r.ngo_id = ngo_id) (hop : body.operation_type = .deposit)
    (hamt : 0 < body.amount) (hp : 0 < env.price)
    (ha1 : a.seed ≠ "") (ha2 : a.address ≠ "")
    (hr1 : r.seed ≠ "") (hr2 : r.address ≠ "")
    (hd : env.fetchDrops a.address = some dd) (hdnn : 0 ≤ dd)
    (hsuff : body.amount ≤ xrpDropsToUsdVal env.price dd)
    (hsub : env.submitOutcome = .ok (some txh)) (hne : txh ≠ "") :
    manage_recipient_balance env (some r) (some a) ngo_id body =
      ⟨.ok ⟨r.balance, r.balance + body.amount, .deposit, body.amount, txh⟩,
        some { r with balance := r.balance + body.amount },
        [.balanceQuery a.address,
         .submitTx a.address r.address ⌊body.amount / env.price * 1000000⌋],
        [], []⟩ ∧ txh ≠ "" :=
  ⟨deposit_run_ok env r a ngo_id body dd txh hngo hop hamt hp ha1 ha2 hr1 hr2
    hd hdnn hsuff hsub hne, hne⟩

/-- Witness for the amended C4: deposit $25 onto balance $0 with a funded
NGO wallet (scenario A): new balance $25, hash "TXHASH". -/
theorem deposit_success_shape_witness :
    manage_recipient_balance happyEnv (some demoRecipient) (some demoAccount)
        "N1" depositBody =
      ⟨.ok ⟨0, 0 + 25, .deposit, 25, "TXHASH"⟩,
        some { demoRecipient with balance := 0 + 25 },
        [.balanceQuery "rNGO", .submitTx "rNGO" "rRCP" ⌊(25 : ℚ) / 2 * 1000000⌋],
        [], []⟩ ∧ "TXHASH" ≠ "" :=
  deposit_success_shape happyEnv demoRecipient demoAccount "N1" depositBody
    50000000 "TXHASH" rfl rfl (by norm_num [depositBody]) (by norm_num [happyEnv])
    (by decide) (by decide) (by decide) (by decide) rfl (by norm_num)
    (by norm_num [xrpDropsToUsdVal, quantizeDown, decRoundDown, happyEnv, depositBody])
    rfl (by decide)

/-- Claim C4 counterexample: the very deposit of scenario A — $25 onto
balance $0, NGO wallet funded, transfer succeeds with hash "TXHASH" —
completes successfully and mutates the balance, yet the lists of Settlement
Records and Movement Records written by the route are both empty, refuting
the claim that a Settlement Record and a Movement Record are created. -/
theorem deposit_success_no_records_counterexample :
    manage_recipient_balance happyEnv (some demoRecipient) (some demoAccount)
        "N1" depositBody =
      ⟨.ok ⟨0, 25, .deposit, 25, "TXHASH"⟩,
        some { demoRecipient with balance := 25 },
        [.balanceQuery "rNGO", .submitTx "rNGO" "rRCP" 12500000], [], []⟩ := by
  have h := deposit_run_ok happyEnv demoRecipient demoAccount "N1" depositBody
    50000000 "TXHASH" rfl rfl (by norm_num [depositBody]) (by norm_num [happyEnv])
    (by decide) (by decide) (by decide) (by decide) rfl (by norm_num)
    (by norm_num [xrpDropsToUsdVal, quantizeDown, decRoundDown, happyEnv, depositBody])
    rfl (by decide)
  rw [h]
  norm_num [demoRecipient, demoAccount, depositBody, happyEnv]

/-- Claim C3: for a Deposit or Withdraw in which the external submission
raises or comes back without a transaction hash, the route fails with
HTTP 502, the stored recipient row is unchanged, and no Settlement or
Movement Record is written; the gateway trace shows the one balance query
and the one failed submission. -/
theorem transfer_failure_aborts (env : GatewayEnv) (r : Recipient) (a : Account)
    (ngo_id : String) (body : BalanceOperation) (dd : ℤ)
    (hngo : r.ngo_id = ngo_id)
    (hamt : 0 < body.amount) (hp : 0 < env.price)
    (ha1 : a.seed ≠ "") (ha2 : a.address ≠ "")
    (hr1 : r.seed ≠ "") (hr2 : r.address ≠ "")
    (hwd : body.operation_type = .withdraw → body.amount ≤ r.balance)
    (hd : env.fetchDrops (match body.operation_type with
        | .deposit => a.address
        | .withdraw => r.address) = some dd)
    (hdnn : 0 ≤ dd)
    (hsuff : body.amount ≤ xrpDropsToUsdVal env.price dd)
    (hfail : submitFailed env.submitOutcome) :
    ∃ m, manage_recipient_balance env (some r) (some a) ngo_id body =
      ⟨.error (.http ⟨502, m⟩), some r,
        [.balanceQuery (match body.operation_type with
            | .deposit => a.address
            | .withdraw => r.address),
         .submitTx
           (match body.operation_type with
            | .deposit => a.address
            | .withdraw => r.address)
           (match body.operation_type with
            | .deposit => r.address
            | .withdraw => a.address)
           ⌊body.amount / env.price * 1000000⌋],
        [], []⟩ := by
  have hsuffn : ¬ xrpDropsToUsdVal env.price dd < body.amount := not_lt.mpr hsuff
  have hlw := load_wallets_ok env a r ha1 ha2 hr1 hr2
  cases hop : body.operation_type with
  | deposit =>
      rw [hop] at hd
      obtain ⟨m, hsend⟩ := send_usd_failed env ⟨a.seed, a.address⟩ r.address
        body.amount ha1 ha2 hr2 hamt hp hfail
      have hnw : ¬ (body.operation_type = .withdraw ∧ r.balance < body.amount) := by
        rw [hop]; rintro ⟨h, -⟩; exact OpType.noConfusion h
      exact ⟨m, by
        simp [manage_recipient_balance, hngo, hnw, hop, hlw, deposit_branch,
          ensure_balance_resolved env a.address body.amount _ _ ha2 dd hd hdnn,
          hsuffn, hsend, wrap_route_errors]⟩
  | withdraw =>
      rw [hop] at hd
      obtain ⟨m, hsend⟩ := send_usd_failed env ⟨r.seed, r.address⟩ a.address
        body.amount hr1 hr2 ha2 hamt hp hfail
      have hnlt : ¬ r.balance < body.amount := not_lt.mpr (hwd hop)
      exact ⟨m, by
        simp [manage_recipient_balance, hngo, hnlt, hop, hlw, withdraw_branch,
          ensure_balance_resolved env r.address body.amount _ _ hr2 dd hd hdnn,
          hsuffn, hsend, wrap_route_errors]⟩

/-- Witness for C3: a valid $25 deposit whose submission returns without a
transaction hash (scenario D shape) aborts with 502, leaves the row at
balance $0 and writes nothing. -/
theorem transfer_failure_aborts_witness :
    ∃ m, manage_recipient_balance noHashEnv (some demoRecipient) (some demoAccount)
        "N1" depositBody =
      ⟨.error (.http ⟨502, m⟩), some demoRecipient,
        [.balanceQuery "rNGO", .submitTx "rNGO" "rRCP" ⌊(25 : ℚ) / 2 * 1000000⌋],
        [], []⟩ :=
  transfer_failure_aborts noHashEnv demoRecipient demoAccount "N1" depositBody
    50000000 rfl (by norm_num [depositBody]) (by norm_num [noHashEnv])
    (by decide) (by decide) (by decide) (by decide)
    (fun h => nomatch h) rfl (by norm_num)
    (by norm_num [xrpDropsToUsdVal, quantizeDown, decRoundDown, noHashEnv, depositBody])
    (by trivial)

/-- Claim C7 amended: the request amount is validated to be positive
(`Field(gt=0)` — `balanceOperationValid`), but it is then used at full
precision: a successful Deposit/Withdraw adds/subtracts exactly
`body.amount` to the stored balance, with no truncation to 2 decimal
places anywhere on the path. -/
theorem amount_used_exact (env : GatewayEnv) (r : Recipient) (a : Account)
    (ngo_id : String) (body : BalanceOperation) (dd : ℤ) (txh : String)
    (hngo : r.ngo_id = ngo_id)
    (hamt : 0 < body.amount) (hp : 0 < env.price)
    (ha1 : a.seed ≠ "") (ha2 : a.address ≠ "")
    (hr1 : r.seed ≠ "") (hr2 : r.address ≠ "")
    (hwd : body.operation_type = .withdraw → body.amount ≤ r.balance)
    (hd : env.fetchDrops (match body.operation_type with
        | .deposit => a.address
        | .withdraw => r.address) = some dd)
    (hdnn : 0 ≤ dd)
    (hsuff : body.amount ≤ xrpDropsToUsdVal env.price dd)
    (hsub : env.submitOutcome = .ok (some txh)) (hne : txh ≠ "") :
    balanceOperationValid body ∧
    (manage_recipient_balance env (some r) (some a) ngo_id body).recipientAfter =
      some { r with balance := r.balance + (match body.operation_type with
          | .deposit => body.amount
          | .withdraw => -body.amount) } := by
  refine ⟨hamt, ?_⟩
  cases hop : body.operation_type with
  | deposit =>
      rw [hop] at hd
      rw [deposit_run_ok env r a ngo_id body dd txh hngo hop hamt hp ha1 ha2 hr1 hr2
        hd hdnn hsuff hsub hne]
  | withdraw =>
      rw [hop] at hd
      rw [withdraw_run_ok env r a ngo_id body dd txh hngo hop hamt hp ha1 ha2 hr1 hr2
        (hwd hop) hd hdnn hsuff hsub hne]
      simp [sub_eq_add_neg]

/-- Witness for the amended C7: a deposit of $1.005 is accepted and stored
in full, moving the balance from $0 to exactly $1.005. -/
theorem amount_used_exact_witness :
    balanceOperationValid fractionalBody ∧
    (manage_recipient_balance happyEnv (some demoRecipient) (some demoAccount)
        "N1" fractionalBody).recipientAfter =
      some { demoRecipient with balance := demoRecipient.balance +
        (match fractionalBody.operation_type with
          | .deposit => fractionalBody.amount
          | .withdraw => -fractionalBody.amount) } :=
  amount_used_exact happyEnv demoRecipient demoAccount "N1" fractionalBody
    50000000 "TXHASH" rfl (by norm_num [fractionalBody]) (by norm_num [happyEnv])
    (by decide) (by decide) (by decide) (by decide)
    (fun h => nomatch h) rfl (by norm_num)
    (by norm_num [xrpDropsToUsdVal, quantizeDown, decRoundDown, happyEnv, fractionalBody])
    rfl (by decide)

/-- Claim C7 counterexample: a Deposit of $1.005 succeeds and stores a
balance of exactly 1.005, although 1.005 truncated to 2 decimal places is
1.00 — so the amount is not rounded down to 2 decimal places before being
used in the balance mutation. -/
theorem amount_not_truncated_counterexample :
    manage_recipient_balance happyEnv (some demoRecipient) (some demoAccount)
        "N1" fractionalBody =
      ⟨.ok ⟨0, 1005 / 1000, .deposit, 1005 / 1000, "TXHASH"⟩,
        some { demoRecipient with balance := 1005 / 1000 },
        [.balanceQuery "rNGO", .submitTx "rNGO" "rRCP" 502500], [], []⟩
    ∧ quantizeDown 2 (1005 / 1000) ≠ 1005 / 1000 := by
  constructor
  · have h := deposit_run_ok happyEnv demoRecipient demoAccount "N1" fractionalBody
      50000000 "TXHASH" rfl rfl (by norm_num [fractionalBody]) (by norm_num [happyEnv])
      (by decide) (by decide) (by decide) (by decide) rfl (by norm_num)
      (by norm_num [xrpDropsToUsdVal, quantizeDown, decRoundDown, happyEnv, fractionalBody])
      rfl (by decide)
    rw [h]
    norm_num [demoRecipient, demoAccount, fractionalBody, happyEnv]
  · norm_num [quantizeDown, decRoundDown]

/-! ## The redeem flow and the balance invariant -/

/-- Helper: full evaluation of the redeem route on a recipient with stored
balance $0 whose on-ledger wallet is well funded, redeeming $15.00. -/
theorem redeem_demo_run :
    redeem redeemEnv (some demoRecipient) redeemBody =
      ⟨.ok ⟨"P1", "USD", 1500,
          ⟨"Q1", "XRP", "USD", 1500, 3110000, 1485, 4871382⟩,
          "TXHASH", "completed", "rRCP", "rNGOHOT", 15⟩,
        some { demoRecipient with balance := -15 },
        [⟨"P1", "S1", "G1", 1500, "USD", "Q1", "TXHASH", "completed", "t1"⟩],
        [⟨"TXHASH", "rRCP", "out", "XRP", 4823151, "t1"⟩]⟩ := by
  have haddr : startsWithR "rRCP" = true := by decide
  have hins : ¬ convert_drops_to_usd (311 / 100) (100000000000 : ℤ) < (15 : ℚ) := by
    norm_num [convert_drops_to_usd, quantizeDown, decRoundDown]
  have hdel : convert_usd_to_drops (311 / 100) (15 : ℚ) = 4823151 := by
    norm_num [convert_usd_to_drops, quantizeDown, decRoundDown]
  simp only [redeem, redeemEnv, redeemBody, demoRecipient, fetch_xrp_balance_drops_src,
    haddr]
  simp [haddr]
  norm_num [hins, hdel, get_quote_src, decRoundDown, Option.getD]

/-- Claim C1: evidence of the code bug — starting from a Recipient whose
stored balance is $0 (≥ 0), a Redeem of $15.00 whose on-ledger wallet
check and transfer succeed completes with an `ok` response yet leaves the
stored off-ledger balance at −$15 < 0: the Redeem flow checks only the
on-ledger wallet balance and decrements the stored balance
unconditionally. -/
theorem redeem_drives_balance_negative :
    (0 : ℚ) ≤ demoRecipient.balance
    ∧ (redeem redeemEnv (some demoRecipient) redeemBody).response.isOk = true
    ∧ (redeem redeemEnv (some demoRecipient) redeemBody).recipientAfter =
        some { demoRecipient with balance := -15 }
    ∧ ((-15 : ℚ) < 0) := by
  refine ⟨by norm_num [demoRecipient], ?_, ?_, by norm_num⟩
  · rw [redeem_demo_run]
    rfl
  · rw [redeem_demo_run]

/-! ## Sanitization of secret fields -/

theorem sanitize_eq_of_agree {r₁ r₂ : Recipient} (h : agreeExceptSecrets r₁ r₂) :
    sanitize_recipient_item r₁ = sanitize_recipient_item r₂ := by
  obtain ⟨h1, h2, h3, h4, h5, h6, h7, h8, h9⟩ := h
  simp [sanitize_recipient_item, h1, h2, h3, h4, h5, h6, h7, h8, h9]

theorem map_sanitize_eq_of_forall₂ :
    ∀ {l₁ l₂ : List Recipient}, List.Forall₂ agreeExceptSecrets l₁ l₂ →
      l₁.map sanitize_recipient_item = l₂.map sanitize_recipient_item := by
  intro l₁ l₂ h
  induction h with
  | nil => rfl
  | cons hab _ ih => simp [List.map_cons, sanitize_eq_of_agree hab, ih]

theorem list_recipients_eq_of_forall₂ (db₁ db₂ : List Recipient)
    (hdb : List.Forall₂ agreeExceptSecrets db₁ db₂) (ngo_id : String)
    (search : Option String) :
    list_recipients db₁ ngo_id search = list_recipients db₂ ngo_id search := by
  have hfilt : List.Forall₂ agreeExceptSecrets
      (db₁.filter fun r => r.ngo_id == ngo_id)
      (db₂.filter fun r => r.ngo_id == ngo_id) :=
    List.rel_filter (by intro x y hxy; simp [hxy.2.1]) hdb
  cases search with
  | none =>
      simp only [list_recipients]
      rw [map_sanitize_eq_of_forall₂ hfilt]
  | some s =>
      by_cases hs : s = ""
      · simp only [list_recipients, hs, if_true, eq_self_iff_true]
        rw [map_sanitize_eq_of_forall₂ hfilt]
      · simp only [list_recipients, if_neg hs]
        have hfilt₂ : List.Forall₂ agreeExceptSecrets
            ((db₁.filter fun r => r.ngo_id == ngo_id).filter fun r =>
              strContains r.name.toLower s.toLower
                || strContains r.location.toLower s.toLower)
            ((db₂.filter fun r => r.ngo_id == ngo_id).filter fun r =>
              strContains r.name.toLower s.toLower
                || strContains r.location.toLower s.toLower) :=
          List.rel_filter (by
            intro x y hxy
            simp [hxy.2.2.1, hxy.2.2.2.1]) hfilt
        rw [map_sanitize_eq_of_forall₂ hfilt₂]

/-- Claim C8: the listing and single-recipient lookup never reveal
`private_key` or `seed`: replacing a stored row by one that agrees on all
other fields leaves the `get_recipient` response and every
`list_recipients` response (any NGO, any search) unchanged. -/
theorem secrets_not_observable (r₁ r₂ : Recipient) (h : agreeExceptSecrets r₁ r₂) :
    (∀ ngo_id, get_recipient (some r₁) ngo_id = get_recipient (some r₂) ngo_id)
    ∧ (∀ (pre post : List Recipient) ngo_id search,
        list_recipients (pre ++ r₁ :: post) ngo_id search =
          list_recipients (pre ++ r₂ :: post) ngo_id search) := by
  constructor
  · intro ngo_id
    have h2 := h.2.1
    simp only [get_recipient, h2, sanitize_eq_of_agree h]
  · intro pre post ngo_id search
    refine list_recipients_eq_of_forall₂ _ _ ?_ ngo_id search
    refine List.rel_append ?_ (List.Forall₂.cons h ?_)
    · exact List.forall₂_same.mpr fun x _ =>
        ⟨rfl, rfl, rfl, rfl, rfl, rfl, rfl, rfl, rfl⟩
    · exact List.forall₂_same.mpr fun x _ =>
        ⟨rfl, rfl, rfl, rfl, rfl, rfl, rfl, rfl, rfl⟩

/-- Witness for C8: two rows identical except for their secret material
give identical lookup and listing responses. -/
theorem secrets_not_observable_witness :
    get_recipient (some rowSecretA) "N1" = get_recipient (some rowSecretB) "N1"
    ∧ list_recipients ([] ++ rowSecretA :: []) "N1" (some "ali") =
        list_recipients ([] ++ rowSecretB :: []) "N1" (some "ali") :=
  ⟨(secrets_not_observable rowSecretA rowSecretB
      ⟨rfl, rfl, rfl, rfl, rfl, rfl, rfl, rfl, rfl⟩).1 "N1",
   (secrets_not_observable rowSecretA rowSecretB
      ⟨rfl, rfl, rfl, rfl, rfl, rfl, rfl, rfl, rfl⟩).2 [] [] "N1" (some "ali")⟩

/-! ## Challenge round-trip -/

/-- Claim C9: within one 300-second bucket, verifying the freshly made
challenge succeeds; and any signature different from the recomputed
challenge for that recipient, address and bucket is rejected. -/
theorem challenge_roundtrip (mac : String → String) (recipient_id address : String)
    (bucket : ℤ) :
    verify_challenge mac (make_challenge mac recipient_id address bucket)
        recipient_id address bucket = true
    ∧ ∀ signature, signature ≠ make_challenge mac recipient_id address bucket →
        verify_challenge mac signature recipient_id address bucket = false := by
  constructor
  · simp [verify_challenge]
  · intro signature hs
    simp [verify_challenge, hs]

/-- Witness for C9 at a concrete MAC, recipient, address and bucket. -/
theorem challenge_roundtrip_witness :
    verify_challenge demoMac (make_challenge demoMac "R1" "rA" 7) "R1" "rA" 7 = true
    ∧ verify_challenge demoMac "bogus" "R1" "rA" 7 = false :=
  ⟨(challenge_roundtrip demoMac "R1" "rA" 7).1,
   (challenge_roundtrip demoMac "R1" "rA" 7).2 "bogus" (by decide)⟩

/-! ## Hardcoded demo shortcuts -/

/-- Claim C10: both hardcoded demo recipient identifiers return the fixed
fabricated record (name "Demo Recipient", balance 100, verified) for every
possible database state, and the demo public key returns a fixed $50
balance for every possible address derivation and ledger state. -/
theorem demo_shortcuts_fixed (db : String → Option Recipient)
    (deriveAddress : String → Option String) (fetchDrops : String → Option ℤ)
    (price : ℚ) :
    get_recipient_public db "550e8400-e29b-41d4-a716-446655440000" =
      .ok ⟨"550e8400-e29b-41d4-a716-446655440000", "Demo Recipient", 100, true,
        "2024-01-01T00:00:00Z"⟩
    ∧ get_recipient_public db "7c18326a-eafb-4f90-804c-6926baacb38a" =
      .ok ⟨"7c18326a-eafb-4f90-804c-6926baacb38a", "Demo Recipient", 100, true,
        "2024-01-01T00:00:00Z"⟩
    ∧ wallet_balance_usd deriveAddress fetchDrops price "demo_public_key_abc123" =
      ⟨some "demo_address_123", 1000000, 50⟩ := by
  refine ⟨?_, ?_, ?_⟩ <;> simp [get_recipient_public, wallet_balance_usd]

end HTN252
